import Mathlib

/-!
Verification development for the `zabbix_api.py` client library
(module `zabbix_api`, class `ZabbixAPI`).

The Python source is shallowly embedded: pure helpers become Lean
functions, the stateful client becomes explicit state passing over a
`ClientState` record, HTTP transport becomes a scripted list of
`TransportEvent`s consumed one per request, and raised exceptions become
`Except` error results.  Wall-clock `time()` values are passed in as
explicit natural-number parameters.
-/

/-- The fixed ordered severity tuple `TRIGGER_SEVERITY` from the source. -/
def TRIGGER_SEVERITY : List String :=
  ["not_classified", "information", "warning", "average", "high", "disaster"]

/--
Scan a character list for a closing double quote, as the non-greedy
regex fragment `.*?"` does: `.` never matches a newline, so the match
succeeds only if a `"` appears before any newline; the value matched is
the (shortest) run of characters before that first `"`.  Returns the
value and the remainder after the closing quote.
-/
def findQuote : List Char → Option (List Char × List Char)
  | [] => none
  | '"' :: t => some ([], t)
  | '\n' :: _ => none
  | c :: t =>
    match findQuote t with
    | some (v, r) => some (c :: v, r)
    | none => none

/--
Try to match the regex `(<field>: )".*?"` at the head of `s`, where
`pat` is the literal text up to and including the opening quote of the
value (e.g. `"auth": "`).  On success, return the total number of
characters of `s` consumed by the whole match.
-/
def matchField (pat : List Char) (s : List Char) : Option Nat :=
  if pat.isPrefixOf s then
    match findQuote (s.drop pat.length) with
    | some (v, _) => some (pat.length + v.length + 1)
    | none => none
  else none

/--
One `re.sub` pass for a pattern `(<field>: )".*?"` with replacement
`\1"***"`: scan left to right, and at each match emit the literal prefix
followed by `***"` and continue after the match (the `skip` counter
skips over the characters already consumed by a match).
-/
def hideFieldAux (pat : List Char) : List Char → Nat → List Char
  | [], _ => []
  | _ :: t, Nat.succ skip => hideFieldAux pat t skip
  | c :: t, 0 =>
    match matchField pat (c :: t) with
    | some consumed => (pat ++ "***\"".data) ++ hideFieldAux pat t (consumed - 1)
    | none => c :: hideFieldAux pat t 0

/-- The literal part of the first `RE_HIDE_AUTH` pattern: `"auth": "`. -/
def authPat : List Char := "\"auth\": \"".data

/-- The literal part of the second `RE_HIDE_AUTH` pattern: `"password": "`. -/
def passwordPat : List Char := "\"password\": \"".data

/--
`hide_auth(msg)`: apply the two `RE_HIDE_AUTH` substitutions in order
(first the `auth` pattern, then the `password` pattern).
-/
def hide_auth (msg : String) : String :=
  String.mk (hideFieldAux passwordPat (hideFieldAux authPat msg.data 0) 0)

/-- Structured API error payload carried by `ZabbixAPIError` (the
`_error_template` merged with the error object's keys). -/
structure ApiError where
  code : Int
  message : String
  data : Option String
deriving DecidableEq

/--
The two exception kinds raised by the library: `ZabbixAPIException`
(transport-level) carrying a message, and its subclass `ZabbixAPIError`
carrying the structured error dict.
-/
inductive Exn where
  | apiException (msg : String)
  | apiError (err : ApiError)
deriving DecidableEq

/-- Rendering of a `ZabbixAPIError` message before redaction:
`'%(message)s %(data)s [%(code)s]' % self.error` (Python renders a
missing `data` value `None` as the text `None`). -/
def renderApiError (e : ApiError) : String :=
  e.message ++ " " ++ (match e.data with | some d => d | none => "None")
    ++ " [" ++ toString e.code ++ "]"

/-- `str(ex)` for either exception: `ZabbixAPIException.__init__` passes
every message through `hide_auth` before storing it. -/
def exnMessage : Exn → String
  | .apiException m => hide_auth m
  | .apiError e => hide_auth (renderApiError e)

/-- Python tuple indexing `l[i]` as used by `TRIGGER_SEVERITY[int(prio)]`:
a negative index counts from the end; an out-of-range index (on either
side) raises `IndexError`, modelled as `none`. -/
def pyTupleIndex (l : List String) (i : Int) : Option String :=
  if 0 ≤ i then l.get? i.toNat
  else if 0 ≤ (l.length : Int) + i then l.get? ((l.length : Int) + i).toNat
  else none

/-- `ZabbixAPI.get_severity(prio)`: look the id up in `TRIGGER_SEVERITY`,
returning `'unknown'` when the lookup raises `IndexError`. -/
def get_severity (prio : Int) : String :=
  match pyTupleIndex TRIGGER_SEVERITY prio with
  | some s => s
  | none => "unknown"

/--
`ZabbixAPI.get_age(dt)` with the two datetimes given as epoch seconds:
`delta = now - dt`; Python's `timedelta` normalises to
`days = delta // 86400` (floor division, so negative for a future `dt`)
and `seconds = delta - 86400*days ∈ [0, 86400)`; then
`hours, rem = divmod(seconds, 3600)`, `minutes, seconds = divmod(rem, 60)`,
and the `if days:` branch (Python truthiness: any nonzero `days`) formats
`'%dd %dh %dm'`, else `'%dh %dm %ds'`.
-/
def get_age (now dt : Int) : String :=
  let delta := now - dt
  let days := Int.fdiv delta 86400
  let secs := (delta - 86400 * days).toNat
  let hours := secs / 3600
  let rem := secs % 3600
  let minutes := rem / 60
  let seconds := rem % 60
  if days ≠ 0 then
    toString days ++ "d " ++ toString hours ++ "h " ++ toString minutes ++ "m"
  else
    toString hours ++ "h " ++ toString minutes ++ "m " ++ toString seconds ++ "s"

example : get_severity 5 = "disaster" := by decide
example : get_severity (-1) = "disaster" := by decide
example : get_severity 6 = "unknown" := by decide
example : get_age 5400 0 = "1h 30m 0s" := by decide
example : get_age 93900 0 = "1d 2h 5m" := by decide
example : get_age 0 3600 = "-1d 23h 0m" := by decide
example :
    hide_auth "\x7b\"auth\": \"secret123\", \"password\": \"p@ss\"\x7d"
      = "\x7b\"auth\": \"***\", \"password\": \"***\"\x7d" := by decide

deriving instance DecidableEq for Except

/-- `s.find(sub) >= 0` in Python: `sub` occurs as a contiguous substring. -/
def listContainsSub (sub : List Char) : List Char → Bool
  | [] => sub.isEmpty
  | c :: t => sub.isPrefixOf (c :: t) || listContainsSub sub t

/-- `str(ex).find(sub) >= 0` on strings. -/
def strContains (s sub : String) : Bool := listContainsSub sub.data s.data

/-- Python truthiness of an optional string (`None` and `''` are falsy). -/
def pyTruthyStr : Option String → Bool
  | none => false
  | some s => s != ""

/-- Python truthiness of an optional number (`None` and `0` are falsy). -/
def pyTruthyNat : Option Nat → Bool
  | none => false
  | some n => n != 0

/--
The mutable state of one `ZabbixAPI` instance that the request lifecycle
touches.  `username`/`password` are the name-mangled
`__username`/`__password` credentials persisted by `login(save=True)`,
`auth` is `__auth`, `id` the request id counter, `lastLogin` the
`last_login` timestamp, `reloginInterval` and `rQueryLen` the constructor
parameters, and `rQuery` the `r_query` deque contents (oldest first).
The HTTP-transport configuration (`server`, handler, headers, timeout)
does not affect any claim and is omitted.  `ghostRequests` and
`ghostRelogins` are write-only instrumentation counters not present in
the source: they count entries into `do_request` and `relogin`
respectively, so that "exactly one relogin / retry" properties can be
stated; no control flow reads them.
-/
structure ClientState where
  username : Option String
  password : Option String
  auth : Option String
  id : Nat
  lastLogin : Option Nat
  reloginInterval : Option Nat
  rQueryLen : Nat
  rQuery : List String
  ghostRequests : Nat
  ghostRelogins : Nat
deriving DecidableEq

/-- A fresh client as built by `ZabbixAPI.__init__` (class attributes
`id = 0`, `last_login = None`, `__auth/__username/__password = None`,
`r_query = deque(maxlen=r_query_len)` empty).  The constructor defaults
are `relogin_interval=60`, `r_query_len=10`. -/
def mkClient (reloginInterval : Option Nat) (rQueryLen : Nat) : ClientState :=
  { username := none, password := none, auth := none, id := 0,
    lastLogin := none, reloginInterval := reloginInterval,
    rQueryLen := rQueryLen, rQuery := [], ghostRequests := 0, ghostRelogins := 0 }

/-- The constructor default for `r_query_len`. -/
def defaultRQueryLen : Nat := 10

/-- The constructor default for `relogin_interval`. -/
def defaultReloginInterval : Option Nat := some 60

/-- `logged_in` property: `bool(self.__auth)`. -/
def logged_in (st : ClientState) : Bool := pyTruthyStr st.auth

/-- `collections.deque(maxlen=m)` append: push on the right, evicting
from the left whenever the length would exceed `m`. -/
def dequePush (maxlen : Nat) (q : List String) (x : String) : List String :=
  let q' := q ++ [x]
  if maxlen < q'.length then q'.drop (q'.length - maxlen) else q'

/--
One scripted outcome of the HTTP round trip inside `do_request`:
`connError` models an exception from `opener.open` (connection problem /
timeout), `httpError` a non-200 status, `emptyBody` a 200 answer with an
empty body, `undecodable` a body `json.loads` rejects, and `decoded` a
successfully decoded JSON object with its optional `result` value and
optional `error` dict.
-/
inductive TransportEvent where
  | connError (msg : String)
  | httpError (status : Nat) (reason : String)
  | emptyBody
  | undecodable (msg : String)
  | decoded (result : Option String) (err : Option ApiError)
deriving DecidableEq

/-- Whether the event reaches the `json.loads` success path. -/
def TransportEvent.isDecoded : TransportEvent → Bool
  | .decoded _ _ => true
  | _ => false

/-- JSON rendering of `self.__auth if auth else None`. -/
def jsonNullOrStr : Option String → String
  | none => "null"
  | some s => "\"" ++ s ++ "\""

/--
`ZabbixAPI.json_obj(method, params, auth)`: `json.dumps` of the dict
`\x7b'jsonrpc': '2.0', 'method': method, 'params': params,
'auth': self.__auth if auth else None, 'id': self.id\x7d` in insertion
order.  `params` is carried as its already-serialised JSON text; the
`params=None` default serialises as the empty object.
-/
def json_obj (st : ClientState) (method : String) (params : Option String)
    (auth : Bool) : String :=
  let paramsStr := match params with | none => "\x7b\x7d" | some p => p
  "\x7b\"jsonrpc\": \"2.0\", \"method\": \"" ++ method ++ "\", \"params\": "
    ++ paramsStr ++ ", \"auth\": " ++ (if auth then jsonNullOrStr st.auth else "null")
    ++ ", \"id\": " ++ toString st.id ++ "\x7d"

/--
`ZabbixAPI.do_request(json_obj)`: append the body to `r_query`, perform
the HTTP round trip (consuming the next scripted event), then classify:
connection failure / non-200 / empty body / undecodable body raise a
`ZabbixAPIException` before the id counter moves; after a successful
decode `self.id += 1`, then a dict `error` raises `ZabbixAPIError`, a
present `result` is returned, and a missing `result` raises
`ZabbixAPIException('Missing result in API response')`.
An exhausted script behaves like a connection failure.
-/
def do_request (st : ClientState) (script : List TransportEvent) (body : String) :
    Except Exn String × ClientState × List TransportEvent :=
  let st1 := { st with rQuery := dequePush st.rQueryLen st.rQuery body,
                       ghostRequests := st.ghostRequests + 1 }
  match script with
  | [] => (.error (.apiException "HTTP connection problem: no response"), st1, [])
  | ev :: rest =>
    match ev with
    | .connError m =>
        (.error (.apiException ("HTTP connection problem: " ++ m)), st1, rest)
    | .httpError status reason =>
        (.error (.apiException ("HTTP error " ++ toString status ++ ": " ++ reason)),
          st1, rest)
    | .emptyBody => (.error (.apiException "Received zero answer"), st1, rest)
    | .undecodable m =>
        (.error (.apiException ("Unable to decode response: " ++ m)), st1, rest)
    | .decoded result err =>
      let st2 := { st1 with id := st1.id + 1 }
      match err with
      | some e => (.error (.apiError e), st2, rest)
      | none =>
        match result with
        | some r => (.ok r, st2, rest)
        | none => (.error (.apiException "Missing result in API response"), st2, rest)

/-- The `params` dict of the `user.login` request. -/
def loginParams (user password : String) : String :=
  "\x7b\"user\": \"" ++ user ++ "\", \"password\": \"" ++ password ++ "\"\x7d"

/-- The tail of `login` once credentials `u`/`p` are resolved: record
`self.last_login = time()` first, then send the unauthenticated
`user.login` request; on success store the result as `__auth`. -/
def loginWith (st : ClientState) (script : List TransportEvent) (now : Nat)
    (u p : String) : Except Exn Unit × ClientState × List TransportEvent :=
  match do_request { st with lastLogin := some now } script
      (json_obj { st with lastLogin := some now } "user.login"
        (some (loginParams u p)) false) with
  | (.ok r, st3, rest) => (.ok (), { st3 with auth := some r }, rest)
  | (.error e, st3, rest) => (.error e, st3, rest)

/--
`ZabbixAPI.login(user, password, save)`: if both arguments are truthy,
optionally persist them; else fall back to both persisted credentials;
else raise `ZabbixAPIException('No authentication information
available.')` without touching anything.
-/
def login (st : ClientState) (script : List TransportEvent) (now : Nat)
    (user password : Option String) (save : Bool) :
    Except Exn Unit × ClientState × List TransportEvent :=
  if pyTruthyStr user && pyTruthyStr password then
    loginWith (if save then { st with username := user, password := password } else st)
      script now (user.getD "") (password.getD "")
  else if pyTruthyStr st.username && pyTruthyStr st.password then
    loginWith st script now (st.username.getD "") (st.password.getD "")
  else (.error (.apiException "No authentication information available."), st, script)

/--
`ZabbixAPI.relogin()`: reset `__auth = None` first, then `login()` with
the persisted credentials (defaults `user=None, password=None, save=True`);
any `ZabbixAPIException` (which every library error is) resets
`__auth = None` again and is re-raised.
-/
def relogin (st : ClientState) (script : List TransportEvent) (now : Nat) :
    Except Exn Unit × ClientState × List TransportEvent :=
  match login { st with auth := none, ghostRelogins := st.ghostRelogins + 1 }
      script now none none true with
  | (.ok u, st2, rest) => (.ok u, st2, rest)
  | (.error e, st2, rest) => (.error e, { st2 with auth := none }, rest)

/--
`ZabbixAPI.check_auth()`: when not logged in, relogin only if
`self.relogin_interval and self.last_login and
(time() - self.last_login) > self.relogin_interval` (Python truthiness
on both attributes), else raise `ZabbixAPIException('Not logged in.')`.
-/
def check_auth (st : ClientState) (script : List TransportEvent) (now : Nat) :
    Except Exn Unit × ClientState × List TransportEvent :=
  if logged_in st then (.ok (), st, script)
  else
    if pyTruthyNat st.reloginInterval && pyTruthyNat st.lastLogin &&
        decide (now - st.lastLogin.getD 0 > st.reloginInterval.getD 0) then
      relogin st script now
    else (.error (.apiException "Not logged in."), st, script)

/-- The attribute names defined on the `ZabbixAPI` class (class
attributes, methods, properties) and set in `__init__`; Python consults
`__getattr__` only for names outside this list. -/
def zabbixAPIDefinedAttrs : List String :=
  ["_ZabbixAPI__username", "_ZabbixAPI__password", "_ZabbixAPI__auth",
   "_http_handler", "_http_headers", "_api_url", "id", "last_login",
   "QUERY_EXTEND", "QUERY_COUNT", "SORT_ASC", "SORT_DESC",
   "logger", "server", "httpuser", "httppasswd", "timeout",
   "relogin_interval", "r_query", "init", "get_severity", "get_datetime",
   "convert_datetime", "timestamp_to_datetime", "get_age", "recent_query",
   "set_log_level", "log", "debug", "json_obj", "do_request", "login",
   "relogin", "logged_in", "check_auth", "api_version", "call"]

/-- `ZabbixAPI.__getattr__(name)`: names starting with `_` raise
`AttributeError` (`none`); any other name yields a fresh
`ZabbixAPISubClass` instance — a plain object, hence truthy. -/
def dunderGetattrTruthy (name : String) : Option Bool :=
  match name.data with
  | '_' :: _ => none
  | _ => some true

/--
Truthiness of `self.relogin_enabled` as read by `call`:
`relogin_enabled` is not a defined attribute of the class, so attribute
lookup falls through to `__getattr__`, which returns a truthy
`ZabbixAPISubClass` wrapper — independent of `relogin_interval`.
-/
def relogin_enabled (st : ClientState) : Bool :=
  if "relogin_enabled" ∈ zabbixAPIDefinedAttrs then
    pyTruthyNat st.reloginInterval
  else (dunderGetattrTruthy "relogin_enabled").getD false

/--
`ZabbixAPI.call(method, params)`: `check_auth()` first (may relogin, may
fail), then the request; if it raises a `ZabbixAPIException` whose
`str(ex)` contains `'Not authorized while sending'` and
`self.relogin_enabled` is truthy, perform `relogin()` (errors propagate)
and retry the request once (re-serialised against the new state); any
other error re-raises.  The `finally` block only logs.
-/
def call (st : ClientState) (script : List TransportEvent) (now : Nat)
    (method : String) (params : Option String) :
    Except Exn String × ClientState × List TransportEvent :=
  match check_auth st script now with
  | (.error e, st1, rest) => (.error e, st1, rest)
  | (.ok _, st1, rest) =>
    match do_request st1 rest (json_obj st1 method params true) with
    | (.ok r, st2, rest2) => (.ok r, st2, rest2)
    | (.error ex, st2, rest2) =>
      if relogin_enabled st2 &&
          strContains (exnMessage ex) "Not authorized while sending" then
        match relogin st2 rest2 now with
        | (.error e2, st3, rest3) => (.error e2, st3, rest3)
        | (.ok _, st3, rest3) => do_request st3 rest3 (json_obj st3 method params true)
      else (.error ex, st2, rest2)

/-- The exception message produced by `do_request` for a failure that
happens before the response body is decoded as JSON. -/
def preParseFail : TransportEvent → Option String
  | .connError m => some ("HTTP connection problem: " ++ m)
  | .httpError status reason => some ("HTTP error " ++ toString status ++ ": " ++ reason)
  | .emptyBody => some "Received zero answer"
  | .undecodable m => some ("Unable to decode response: " ++ m)
  | .decoded _ _ => none

/-- The client state after a first `call` request that failed before the
id counter moved: the serialised body is logged and one request counted. -/
def afterFirstFail (st : ClientState) (method : String) (params : Option String) :
    ClientState :=
  { st with rQuery := dequePush st.rQueryLen st.rQuery (json_obj st method params true),
            ghostRequests := st.ghostRequests + 1 }

lemma do_request_snd (st : ClientState) (script : List TransportEvent) (body : String) :
    (do_request st script body).2.1.rQuery = dequePush st.rQueryLen st.rQuery body ∧
    (do_request st script body).2.1.ghostRequests = st.ghostRequests + 1 ∧
    (do_request st script body).2.1.ghostRelogins = st.ghostRelogins ∧
    (do_request st script body).2.1.lastLogin = st.lastLogin ∧
    st.id ≤ (do_request st script body).2.1.id := by
  rcases script with _ | ⟨ev, rest⟩
  · exact ⟨rfl, rfl, rfl, rfl, Nat.le_refl _⟩
  · rcases ev with m | ⟨code, reason⟩ | _ | m | ⟨result, err⟩
    · exact ⟨rfl, rfl, rfl, rfl, Nat.le_refl _⟩
    · exact ⟨rfl, rfl, rfl, rfl, Nat.le_refl _⟩
    · exact ⟨rfl, rfl, rfl, rfl, Nat.le_refl _⟩
    · exact ⟨rfl, rfl, rfl, rfl, Nat.le_refl _⟩
    · rcases err with _ | e
      · rcases result with _ | r
        · exact ⟨rfl, rfl, rfl, rfl, Nat.le_succ _⟩
        · exact ⟨rfl, rfl, rfl, rfl, Nat.le_succ _⟩
      · exact ⟨rfl, rfl, rfl, rfl, Nat.le_succ _⟩

lemma do_request_id_head (st : ClientState) (ev : TransportEvent)
    (rest : List TransportEvent) (body : String) :
    (do_request st (ev :: rest) body).2.1.id
      = st.id + (if ev.isDecoded then 1 else 0) := by
  rcases ev with m | ⟨code, reason⟩ | _ | m | ⟨result, err⟩
  · rfl
  · rfl
  · rfl
  · rfl
  · rcases err with _ | e
    · rcases result with _ | r
      · rfl
      · rfl
    · rfl

lemma loginWith_snd (st : ClientState) (script : List TransportEvent) (now : Nat)
    (u p : String) :
    (loginWith st script now u p).2.1.ghostRelogins = st.ghostRelogins ∧
    (loginWith st script now u p).2.1.lastLogin = some now ∧
    (loginWith st script now u p).2.1.ghostRequests = st.ghostRequests + 1 ∧
    st.id ≤ (loginWith st script now u p).2.1.id ∧
    (loginWith st script now u p).2.1.rQuery
      = dequePush st.rQueryLen st.rQuery
          (json_obj { st with lastLogin := some now } "user.login"
            (some (loginParams u p)) false) := by
  unfold loginWith
  rcases hd : do_request { st with lastLogin := some now } script
      (json_obj { st with lastLogin := some now } "user.login"
        (some (loginParams u p)) false) with ⟨res, st3, rest⟩
  have h := do_request_snd { st with lastLogin := some now } script
      (json_obj { st with lastLogin := some now } "user.login"
        (some (loginParams u p)) false)
  rw [hd] at h
  rcases res with e | r <;>
    exact ⟨h.2.2.1, h.2.2.2.1, h.2.1, h.2.2.2.2, h.1⟩

lemma login_snd (st : ClientState) (script : List TransportEvent) (now : Nat)
    (user password : Option String) (save : Bool) :
    (login st script now user password save).2.1.ghostRelogins = st.ghostRelogins ∧
    st.id ≤ (login st script now user password save).2.1.id := by
  unfold login
  by_cases h1 : (pyTruthyStr user && pyTruthyStr password) = true
  · rw [if_pos h1]
    cases save
    · exact ⟨(loginWith_snd st script now _ _).1,
             (loginWith_snd st script now _ _).2.2.2.1⟩
    · exact ⟨(loginWith_snd { st with username := user, password := password }
               script now _ _).1,
             (loginWith_snd { st with username := user, password := password }
               script now _ _).2.2.2.1⟩
  · rw [if_neg h1]
    by_cases h2 : (pyTruthyStr st.username && pyTruthyStr st.password) = true
    · rw [if_pos h2]
      exact ⟨(loginWith_snd st script now _ _).1,
             (loginWith_snd st script now _ _).2.2.2.1⟩
    · rw [if_neg h2]
      exact ⟨rfl, Nat.le_refl _⟩

lemma relogin_snd (st : ClientState) (script : List TransportEvent) (now : Nat) :
    (relogin st script now).2.1.ghostRelogins = st.ghostRelogins + 1 ∧
    st.id ≤ (relogin st script now).2.1.id := by
  unfold relogin
  rcases hl : login { st with auth := none, ghostRelogins := st.ghostRelogins + 1 }
      script now none none true with ⟨res, st2, rest⟩
  have h := login_snd { st with auth := none, ghostRelogins := st.ghostRelogins + 1 }
      script now none none true
  rw [hl] at h
  rcases res with e | u
  · exact ⟨h.1, h.2⟩
  · exact ⟨h.1, h.2⟩

lemma check_auth_logged_in (st : ClientState) (script : List TransportEvent) (now : Nat)
    (h : logged_in st = true) :
    check_auth st script now = (.ok (), st, script) := by
  unfold check_auth
  rw [if_pos h]

lemma check_auth_id_le (st : ClientState) (script : List TransportEvent) (now : Nat) :
    st.id ≤ (check_auth st script now).2.1.id := by
  unfold check_auth
  split_ifs with h1 h2
  · exact Nat.le_refl _
  · exact (relogin_snd st script now).2
  · exact Nat.le_refl _

lemma relogin_enabled_true (st : ClientState) : relogin_enabled st = true := by
  unfold relogin_enabled
  rw [if_neg (by decide : ¬ ("relogin_enabled" ∈ zabbixAPIDefinedAttrs))]
  rfl

lemma call_logged_in (st : ClientState) (script : List TransportEvent) (now : Nat)
    (method : String) (params : Option String) (hlog : logged_in st = true) :
    call st script now method params =
      match do_request st script (json_obj st method params true) with
      | (.ok r, st2, rest2) => (.ok r, st2, rest2)
      | (.error ex, st2, rest2) =>
        if relogin_enabled st2 &&
            strContains (exnMessage ex) "Not authorized while sending" then
          match relogin st2 rest2 now with
          | (.error e2, st3, rest3) => (.error e2, st3, rest3)
          | (.ok _, st3, rest3) => do_request st3 rest3 (json_obj st3 method params true)
        else (.error ex, st2, rest2) := by
  unfold call
  rw [check_auth_logged_in st script now hlog]

lemma call_unfold_fail (st : ClientState) (now : Nat) (method : String)
    (params : Option String) (ev : TransportEvent) (rest : List TransportEvent)
    (msg : String) (hlog : logged_in st = true) (hev : preParseFail ev = some msg) :
    call st (ev :: rest) now method params =
      (if strContains (hide_auth msg) "Not authorized while sending" then
        match relogin (afterFirstFail st method params) rest now with
        | (.error e2, st3, rest3) => (.error e2, st3, rest3)
        | (.ok _, st3, rest3) => do_request st3 rest3 (json_obj st3 method params true)
      else (.error (.apiException msg), afterFirstFail st method params, rest)) := by
  rw [call_logged_in st (ev :: rest) now method params hlog]
  have hdo : do_request st (ev :: rest) (json_obj st method params true)
      = (.error (.apiException msg), afterFirstFail st method params, rest) := by
    rcases ev with m | ⟨code, reason⟩ | _ | m | ⟨result, err⟩ <;>
      simp only [preParseFail, Option.some.injEq, reduceCtorEq] at hev <;>
      rw [← hev] <;> rfl
  rw [hdo]
  show (if relogin_enabled (afterFirstFail st method params) &&
        strContains (hide_auth msg) "Not authorized while sending" then
      match relogin (afterFirstFail st method params) rest now with
      | (.error e2, st3, rest3) => (.error e2, st3, rest3)
      | (.ok _, st3, rest3) => do_request st3 rest3 (json_obj st3 method params true)
    else (.error (.apiException msg), afterFirstFail st method params, rest)) = _
  rw [relogin_enabled_true, Bool.true_and]

lemma dequePush_eq_drop (m : Nat) (q : List String) (x : String) :
    dequePush m q x = (q ++ [x]).drop ((q ++ [x]).length - m) := by
  unfold dequePush
  by_cases h : m < (q ++ [x]).length
  · rw [if_pos h]
  · rw [if_neg h, Nat.sub_eq_zero_of_le (Nat.le_of_not_lt h), List.drop_zero]

lemma dequePush_drop_absorb (m : Nat) (l : List String) (b : String) :
    (l.drop (l.length - m) ++ [b]).drop ((l.drop (l.length - m) ++ [b]).length - m)
      = (l ++ [b]).drop ((l ++ [b]).length - m) := by
  rw [List.length_append, List.length_append, List.length_drop,
    List.drop_append_eq_append_drop, List.drop_append_eq_append_drop, List.drop_drop,
    List.length_drop]
  congr 1
  · congr 1
    omega
  · congr 1
    omega

lemma foldl_dequePush (m : Nat) (bodies : List String) :
    bodies.foldl (dequePush m) [] = bodies.drop (bodies.length - m) := by
  induction bodies using List.reverseRecOn with
  | nil => simp
  | append_singleton bs b ih =>
    rw [List.foldl_append, List.foldl_cons, List.foldl_nil, ih, dequePush_eq_drop]
    exact dequePush_drop_absorb m bs b

lemma check_auth_snd_id (st : ClientState) (script : List TransportEvent) (now : Nat) :
    st.id ≤ (check_auth st script now).2.1.id := check_auth_id_le st script now

lemma call_id_le (st : ClientState) (script : List TransportEvent) (now : Nat)
    (method : String) (params : Option String) :
    st.id ≤ (call st script now method params).2.1.id := by
  unfold call
  split
  · rename_i e st1 rest hc
    have h := check_auth_id_le st script now
    rw [hc] at h
    exact h
  · rename_i u st1 rest hc
    have h1 : st.id ≤ st1.id := by
      have h := check_auth_id_le st script now
      rw [hc] at h
      exact h
    split
    · rename_i r st2 rest2 hd
      have h2 := (do_request_snd st1 rest (json_obj st1 method params true)).2.2.2.2
      rw [hd] at h2
      exact Nat.le_trans h1 h2
    · rename_i ex st2 rest2 hd
      have h2 : st1.id ≤ st2.id := by
        have h := (do_request_snd st1 rest (json_obj st1 method params true)).2.2.2.2
        rw [hd] at h
        exact h
      split
      · split
        · rename_i e2 st3 rest3 hr
          have h3 : st2.id ≤ st3.id := by
            have h := (relogin_snd st2 rest2 now).2
            rw [hr] at h
            exact h
          exact Nat.le_trans h1 (Nat.le_trans h2 h3)
        · rename_i u2 st3 rest3 hr
          have h3 : st2.id ≤ st3.id := by
            have h := (relogin_snd st2 rest2 now).2
            rw [hr] at h
            exact h
          exact Nat.le_trans h1 (Nat.le_trans h2 (Nat.le_trans h3
            (do_request_snd st3 rest3 (json_obj st3 method params true)).2.2.2.2))
      · exact Nat.le_trans h1 h2

/--
C7 counterexample: the severity id `-1` lies outside `[0,5]`, yet the
lookup returns `'disaster'` (Python's negative tuple indexing), not the
`'unknown'` sentinel the claim demands.
-/
theorem get_severity_counterexample :
    get_severity (-1) = "disaster" ∧ get_severity (-1) ≠ "unknown" := by decide

/--
C7 (amended): for `prio` in `[0,5]` the lookup returns the exact label
at that index of the fixed 6-element list; for `prio` in `[-6,-1]`
Python's negative indexing returns the label at index `prio + 6`; only
for `prio` outside `[-6,5]` does the lookup raise `IndexError` and
return the `'unknown'` sentinel.
-/
theorem get_severity_spec (prio : Int) :
    (0 ≤ prio → prio ≤ 5 → get_severity prio = TRIGGER_SEVERITY.getD prio.toNat "") ∧
    (-6 ≤ prio → prio < 0 →
      get_severity prio = TRIGGER_SEVERITY.getD (prio + 6).toNat "") ∧
    (prio < -6 ∨ 5 < prio → get_severity prio = "unknown") := by
  refine ⟨?_, ?_, ?_⟩
  · intro h0 h5
    interval_cases prio <;> decide
  · intro h6 h0
    interval_cases prio <;> decide
  · intro h
    unfold get_severity pyTupleIndex
    rcases h with h | h
    · rw [if_neg (by omega : ¬ (0:Int) ≤ prio)]
      rw [show ((TRIGGER_SEVERITY.length : Int)) = 6 from rfl]
      rw [if_neg (by omega : ¬ (0:Int) ≤ 6 + prio)]
    · rw [if_pos (by omega : (0:Int) ≤ prio)]
      obtain ⟨k, hk⟩ : ∃ k, prio.toNat = k + 6 := ⟨prio.toNat - 6, by omega⟩
      rw [hk]
      rfl

/-- C7 witness: the amended theorem applied at `prio = 3`, `-2`, `7`. -/
theorem get_severity_spec_witness :
    get_severity 3 = TRIGGER_SEVERITY.getD (3 : Int).toNat "" ∧
    get_severity (-2) = TRIGGER_SEVERITY.getD ((-2 : Int) + 6).toNat "" ∧
    get_severity 7 = "unknown" :=
  ⟨(get_severity_spec 3).1 (by decide) (by decide),
   (get_severity_spec (-2)).2.1 (by decide) (by decide),
   (get_severity_spec 7).2.2 (Or.inr (by decide))⟩

/--
C10 counterexample: for a datetime one hour in the future the delta has
`days = -1` (not `> 0`), so the claim requires the
`'<hours>h <minutes>m <seconds>s'` shape (which would be `"23h 0m 0s"`),
but the code's `if days:` truthiness test takes the days branch and
returns `"-1d 23h 0m"`.
-/
theorem get_age_counterexample :
    get_age 0 3600 = "-1d 23h 0m" ∧ get_age 0 3600 ≠ "23h 0m 0s" := by decide

/--
C10 (amended): with `days` the floor-division of the delta by 86400 and
`secs` the normalised remainder, any *nonzero* `days` (positive or
negative, i.e. Python's `if days:`) yields `'<days>d <hours>h <minutes>m'`,
and `days = 0` yields `'<hours>h <minutes>m <seconds>s'`; in particular a
delta of 90 minutes gives `"1h 30m 0s"` and 1 day 2 hours 5 minutes gives
`"1d 2h 5m"`.
-/
theorem get_age_spec (now dt : Int) :
    (Int.fdiv (now - dt) 86400 ≠ 0 →
      get_age now dt = toString (Int.fdiv (now - dt) 86400) ++ "d "
        ++ toString ((now - dt - 86400 * Int.fdiv (now - dt) 86400).toNat / 3600) ++ "h "
        ++ toString ((now - dt - 86400 * Int.fdiv (now - dt) 86400).toNat % 3600 / 60)
        ++ "m") ∧
    (Int.fdiv (now - dt) 86400 = 0 →
      get_age now dt
        = toString ((now - dt - 86400 * Int.fdiv (now - dt) 86400).toNat / 3600) ++ "h "
        ++ toString ((now - dt - 86400 * Int.fdiv (now - dt) 86400).toNat % 3600 / 60)
        ++ "m "
        ++ toString ((now - dt - 86400 * Int.fdiv (now - dt) 86400).toNat % 3600 % 60)
        ++ "s") ∧
    get_age 5400 0 = "1h 30m 0s" ∧ get_age 93900 0 = "1d 2h 5m" := by
  refine ⟨?_, ?_, by decide, by decide⟩
  · intro h
    unfold get_age
    rw [if_pos h]
  · intro h
    unfold get_age
    rw [if_neg (by simp [h])]

/-- C10 witness: the amended theorem applied at a one-day-plus delta and
at a sub-day delta. -/
theorem get_age_spec_witness :
    get_age 100000 0 = toString (Int.fdiv ((100000 : Int) - 0) 86400) ++ "d "
      ++ toString ((((100000 : Int) - 0) - 86400 * Int.fdiv ((100000 : Int) - 0) 86400).toNat / 3600) ++ "h "
      ++ toString ((((100000 : Int) - 0) - 86400 * Int.fdiv ((100000 : Int) - 0) 86400).toNat % 3600 / 60) ++ "m" :=
  (get_age_spec 100000 0).1 (by decide)

/--
C9: `hide_auth` masks both the quoted `auth` field value and the quoted
`password` field value anywhere in a given text, replacing each value
with the fixed `***` placeholder — including the spec's example input —
and `ZabbixAPIException.__init__` (hence also its subclass
`ZabbixAPIError`) passes every exception message through `hide_auth`.
-/
theorem hide_auth_redaction :
    hide_auth "\x7b\"auth\": \"secret123\", \"password\": \"p@ss\"\x7d"
      = "\x7b\"auth\": \"***\", \"password\": \"***\"\x7d" ∧
    (∀ msg, exnMessage (Exn.apiException msg) = hide_auth msg) ∧
    (∀ e, exnMessage (Exn.apiError e) = hide_auth (renderApiError e)) ∧
    hide_auth "error near \"auth\": \"tok en\" in body \"password\": \"hunter2\" end"
      = "error near \"auth\": \"***\" in body \"password\": \"***\" end" :=
  ⟨by decide, fun _ => rfl, fun _ => rfl, by decide⟩

/--
C6: the recent-query log is exactly the most recent `maxlen` request
bodies in send order (oldest evicted first) — folding the deque append
over any send history equals the history's final-`maxlen` suffix — its
length never exceeds the capacity, `do_request` appends the serialised
body to the log on *every* path (before the transport outcome is even
consulted, so an entry exists even when the request fails), the
constructor default capacity is 10, and a fresh client's log is empty.
-/
theorem recent_query_log (maxlen : Nat) (bodies : List String) (st : ClientState)
    (script : List TransportEvent) (body : String) :
    bodies.foldl (dequePush maxlen) [] = bodies.drop (bodies.length - maxlen) ∧
    (bodies.foldl (dequePush maxlen) []).length ≤ maxlen ∧
    (do_request st script body).2.1.rQuery = dequePush st.rQueryLen st.rQuery body ∧
    defaultRQueryLen = 10 ∧
    (mkClient defaultReloginInterval defaultRQueryLen).rQuery = [] := by
  refine ⟨foldl_dequePush maxlen bodies, ?_, (do_request_snd st script body).1, rfl, rfl⟩
  rw [foldl_dequePush, List.length_drop]
  omega

/--
C2 counterexample: a response that decodes as JSON but carries neither
`result` nor `error` (e.g. the body `\x7b\x7d`) raises the
transport-level `ZabbixAPIException('Missing result in API response')`,
yet the request id counter is incremented from 0 to 1 — contradicting
"exactly zero times for any transport-level failure".
-/
theorem request_id_counterexample :
    (do_request (mkClient defaultReloginInterval defaultRQueryLen)
        [TransportEvent.decoded none none] "body").1
      = Except.error (Exn.apiException "Missing result in API response") ∧
    (do_request (mkClient defaultReloginInterval defaultRQueryLen)
        [TransportEvent.decoded none none] "body").2.1.id = 1 ∧
    (mkClient defaultReloginInterval defaultRQueryLen).id = 0 := by decide

/--
C2 (amended): the id counter starts at 0 and is incremented by
`do_request` exactly once per request whose response body is
successfully decoded as JSON — whether it carries a result, a structured
API error, or neither (the missing-result case still increments even
though it raises a transport-level exception) — and exactly zero times
for failures that occur before decoding (connection error, non-200
status, empty body, undecodable body); across a whole `call` the counter
never decreases.
-/
theorem request_id_counter (st : ClientState) (ev : TransportEvent)
    (rest : List TransportEvent) (body : String) (script : List TransportEvent)
    (now : Nat) (method : String) (params : Option String) :
    (mkClient defaultReloginInterval defaultRQueryLen).id = 0 ∧
    (do_request st (ev :: rest) body).2.1.id
      = st.id + (if ev.isDecoded then 1 else 0) ∧
    st.id ≤ (call st script now method params).2.1.id :=
  ⟨rfl, do_request_id_head st ev rest body, call_id_le st script now method params⟩

/-- A logged-out state whose relogin interval is configured as `0`. -/
def zeroIntervalState : ClientState :=
  { username := some "Admin", password := some "zabbix", auth := none, id := 0,
    lastLogin := some 50, reloginInterval := some 0, rQueryLen := 10, rQuery := [],
    ghostRequests := 0, ghostRelogins := 0 }

/--
C3 counterexample: in `zeroIntervalState` the client is not
authenticated, a relogin interval is configured (`0`), a previous login
attempt exists (time 50), and at time 100 the elapsed 50 seconds exceed
the interval — the claim demands an automatic relogin — yet
`check_auth` raises `'Not logged in.'` and performs no relogin, because
Python's `if self.relogin_interval and ...` treats the configured `0` as
falsy.
-/
theorem check_auth_counterexample :
    logged_in zeroIntervalState = false ∧
    zeroIntervalState.reloginInterval = some 0 ∧
    zeroIntervalState.lastLogin = some 50 ∧
    100 - 50 > 0 ∧
    check_auth zeroIntervalState [] 100
      = (.error (.apiException "Not logged in."), zeroIntervalState, []) ∧
    (check_auth zeroIntervalState [] 100).2.1.ghostRelogins
      = zeroIntervalState.ghostRelogins := by decide

/--
C3 (amended): while not authenticated, `check_auth` performs an
automatic relogin (with any relogin failure propagating, since the call
reduces to `relogin` itself) exactly when a *nonzero* relogin interval
is configured, a previous login attempt exists at a *nonzero* timestamp
(Python truthiness on both attributes), and the elapsed time exceeds the
interval; in every other not-authenticated case it raises the
`'Not logged in.'` error and performs no relogin.
-/
theorem check_auth_relogin (st : ClientState) (script : List TransportEvent)
    (now : Nat) (hlog : logged_in st = false) :
    (∀ ri ll, st.reloginInterval = some ri → ri ≠ 0 → st.lastLogin = some ll →
      ll ≠ 0 → now - ll > ri → check_auth st script now = relogin st script now) ∧
    ((pyTruthyNat st.reloginInterval && pyTruthyNat st.lastLogin &&
        decide (now - st.lastLogin.getD 0 > st.reloginInterval.getD 0)) = false →
      check_auth st script now = (.error (.apiException "Not logged in."), st, script) ∧
      (check_auth st script now).2.1.ghostRelogins = st.ghostRelogins) := by
  constructor
  · intro ri ll hri hri0 hll hll0 hgt
    unfold check_auth
    rw [if_neg (by simp [hlog]), if_pos]
    rw [hri, hll]
    simp [pyTruthyNat, hri0, hll0, hgt]
  · intro hcond
    unfold check_auth
    rw [if_neg (by simp [hlog]), if_neg (by simp [hcond])]
    exact ⟨rfl, rfl⟩

/-- A logged-out state with persisted credentials, interval 60,
last attempt at time 10. -/
def staleLoginState : ClientState :=
  { username := some "Admin", password := some "zabbix", auth := none, id := 0,
    lastLogin := some 10, reloginInterval := some 60, rQueryLen := 10, rQuery := [],
    ghostRequests := 0, ghostRelogins := 0 }

/-- C3 witness: at time 100 (elapsed 90 > 60) `check_auth` is exactly a
relogin, and in a config where the guard is false it raises. -/
theorem check_auth_relogin_witness :
    check_auth staleLoginState [] 100 = relogin staleLoginState [] 100 ∧
    check_auth (mkClient defaultReloginInterval defaultRQueryLen) [] 100
      = (.error (.apiException "Not logged in."),
         mkClient defaultReloginInterval defaultRQueryLen, []) :=
  ⟨(check_auth_relogin staleLoginState [] 100 rfl).1 60 10 rfl (by decide) rfl
      (by decide) (by decide),
   ((check_auth_relogin (mkClient defaultReloginInterval defaultRQueryLen) [] 100
      rfl).2 (by decide)).1⟩

/-- `True` exactly on the `Except.error` constructor. -/
def isError {α : Type} : Except Exn α → Bool
  | .error _ => true
  | .ok _ => false

/--
C4: `relogin` clears the auth token before attempting login — its
result is exactly that of `login` run on the state with `auth := none`
(so the attempt never sees the stale token, and the login error, if any,
propagates unchanged) — it counts as exactly one relogin, and whenever
it fails the final state's auth token is still cleared, i.e. the client
is not logged in.
-/
theorem relogin_clears_auth (st : ClientState) (script : List TransportEvent)
    (now : Nat) :
    (relogin st script now).1
      = (login { st with auth := none, ghostRelogins := st.ghostRelogins + 1 }
          script now none none true).1 ∧
    (relogin st script now).2.1.ghostRelogins = st.ghostRelogins + 1 ∧
    (isError (relogin st script now).1 = true →
      (relogin st script now).2.1.auth = none ∧
      logged_in (relogin st script now).2.1 = false) := by
  unfold relogin
  rcases hl : login { st with auth := none, ghostRelogins := st.ghostRelogins + 1 }
      script now none none true with ⟨res, st2, rest⟩
  have h := login_snd { st with auth := none, ghostRelogins := st.ghostRelogins + 1 }
      script now none none true
  rw [hl] at h
  rcases res with e | u
  · exact ⟨rfl, h.1, fun _ => ⟨rfl, rfl⟩⟩
  · exact ⟨rfl, h.1, fun hcontra => Bool.noConfusion hcontra⟩

/-- A state holding a stale token but no persisted credentials. -/
def staleTokenState : ClientState :=
  { username := none, password := none, auth := some "stale", id := 0,
    lastLogin := some 5, reloginInterval := some 60, rQueryLen := 10, rQuery := [],
    ghostRequests := 0, ghostRelogins := 0 }

/-- C4 witness: a failing relogin (no credentials persisted) leaves the
token cleared and the client logged out. -/
theorem relogin_clears_auth_witness :
    (relogin staleTokenState [] 7).2.1.auth = none ∧
    logged_in (relogin staleTokenState [] 7).2.1 = false :=
  (relogin_clears_auth staleTokenState [] 7).2.2 (by decide)

/--
C8: `login` with `user` and `password` omitted falls back to the
persisted credentials; if none are persisted it fails with
`'No authentication information available.'` leaving the state (and the
transport script — no request is issued, no last-attempt marker is
written) untouched; when credentials are available the last-attempt
marker is set to the current time *before* the request is issued —
unconditionally, whatever the request's outcome — exactly one request is
issued, and the request body logged in `r_query` carries the persisted
credentials; likewise for explicitly given credentials.
-/
theorem login_credentials (st : ClientState) (script : List TransportEvent)
    (now : Nat) (save : Bool) :
    ((pyTruthyStr st.username && pyTruthyStr st.password) = false →
      login st script now none none save
        = (.error (.apiException "No authentication information available."),
           st, script)) ∧
    ((pyTruthyStr st.username && pyTruthyStr st.password) = true →
      (login st script now none none save).2.1.lastLogin = some now ∧
      (login st script now none none save).2.1.ghostRequests = st.ghostRequests + 1 ∧
      (login st script now none none save).2.1.rQuery
        = dequePush st.rQueryLen st.rQuery
            (json_obj { st with lastLogin := some now } "user.login"
              (some (loginParams (st.username.getD "") (st.password.getD ""))) false)) ∧
    (∀ user password : Option String,
      (pyTruthyStr user && pyTruthyStr password) = true →
      (login st script now user password save).2.1.lastLogin = some now) := by
  refine ⟨?_, ?_, ?_⟩
  · intro h
    unfold login
    rw [if_neg (by decide), if_neg (by simp [h])]
  · intro h
    unfold login
    rw [if_neg (by decide), if_pos h]
    have hw := loginWith_snd st script now (st.username.getD "") (st.password.getD "")
    exact ⟨hw.2.1, hw.2.2.1, hw.2.2.2.2⟩
  · intro user password h
    unfold login
    rw [if_pos h]
    cases save
    · exact (loginWith_snd st script now _ _).2.1
    · exact (loginWith_snd { st with username := user, password := password }
        script now _ _).2.1

/-- C8 witness: with no persisted credentials login fails untouched;
with persisted credentials (and a transport that will fail) the
last-attempt marker is still written before the request. -/
theorem login_credentials_witness :
    login (mkClient defaultReloginInterval defaultRQueryLen) [] 42 none none true
      = (.error (.apiException "No authentication information available."),
         mkClient defaultReloginInterval defaultRQueryLen, []) ∧
    (login staleLoginState [TransportEvent.connError "timeout"] 42
        none none true).2.1.lastLogin = some 42 :=
  ⟨(login_credentials (mkClient defaultReloginInterval defaultRQueryLen) [] 42 true).1
      (by decide),
   ((login_credentials staleLoginState [TransportEvent.connError "timeout"] 42
      true).2.1 (by decide)).1⟩

lemma call_fail_relogin_count (st : ClientState) (now : Nat) (method : String)
    (params : Option String) (ev : TransportEvent) (rest : List TransportEvent)
    (msg : String) (hlog : logged_in st = true) (hev : preParseFail ev = some msg)
    (hmatch : strContains (hide_auth msg) "Not authorized while sending" = true) :
    (call st (ev :: rest) now method params).2.1.ghostRelogins
      = st.ghostRelogins + 1 := by
  rw [call_unfold_fail st now method params ev rest msg hlog hev, if_pos hmatch]
  rcases hr : relogin (afterFirstFail st method params) rest now with ⟨res, st2, rest2⟩
  have hrs := relogin_snd (afterFirstFail st method params) rest now
  rw [hr] at hrs
  rcases res with e | u
  · exact hrs.1
  · have hd := (do_request_snd st2 rest2 (json_obj st2 method params true)).2.2.1
    rw [hd]
    exact hrs.1

/--
C1: when the client is authenticated and the first request of a `call`
fails with a transport-level error whose redacted message contains the
`'Not authorized while sending'` authorisation-failure text (the code's
retry heuristic — the relogin-enabled guard is always satisfied, see the
`__getattr__` dispatch), `call` performs exactly one relogin and retries
the same method/params exactly once: if the relogin succeeds the result
is exactly the second request's outcome (whatever it is — no further
retry), and if the relogin fails, its error and state propagate
unchanged; a transport-level failure whose message does not match the
heuristic propagates unchanged with no relogin.
-/
theorem call_not_authorized_retry (st : ClientState) (now : Nat) (method : String)
    (params : Option String) (ev : TransportEvent) (rest : List TransportEvent)
    (msg : String) (hlog : logged_in st = true) (hev : preParseFail ev = some msg) :
    (strContains (hide_auth msg) "Not authorized while sending" = true →
      (call st (ev :: rest) now method params).2.1.ghostRelogins
          = st.ghostRelogins + 1 ∧
      (∀ u st2 rest2,
        relogin (afterFirstFail st method params) rest now = (.ok u, st2, rest2) →
        call st (ev :: rest) now method params
          = do_request st2 rest2 (json_obj st2 method params true)) ∧
      (∀ e st2 rest2,
        relogin (afterFirstFail st method params) rest now = (.error e, st2, rest2) →
        call st (ev :: rest) now method params = (.error e, st2, rest2))) ∧
    (strContains (hide_auth msg) "Not authorized while sending" = false →
      call st (ev :: rest) now method params
        = (.error (.apiException msg), afterFirstFail st method params, rest) ∧
      (call st (ev :: rest) now method params).2.1.ghostRelogins
        = st.ghostRelogins) := by
  constructor
  · intro hmatch
    refine ⟨call_fail_relogin_count st now method params ev rest msg hlog hev hmatch,
      ?_, ?_⟩
    · intro u st2 rest2 heq
      rw [call_unfold_fail st now method params ev rest msg hlog hev, if_pos hmatch,
        heq]
    · intro e st2 rest2 heq
      rw [call_unfold_fail st now method params ev rest msg hlog hev, if_pos hmatch,
        heq]
  · intro hmatch
    rw [call_unfold_fail st now method params ev rest msg hlog hev,
      if_neg (by simp [hmatch])]
    exact ⟨rfl, rfl⟩

/-- An authenticated state with persisted credentials. -/
def authedState : ClientState :=
  { username := some "Admin", password := some "zabbix", auth := some "tok", id := 3,
    lastLogin := some 5, reloginInterval := some 60, rQueryLen := 10, rQuery := [],
    ghostRequests := 0, ghostRelogins := 0 }

/-- C1 witness: a first attempt failing with the not-authorized text,
followed by a successful relogin and retry, performs exactly one
relogin. -/
theorem call_not_authorized_retry_witness :
    (call authedState
        (TransportEvent.connError "Not authorized while sending request"
          :: [TransportEvent.decoded (some "tok2") none,
              TransportEvent.decoded (some "ok") none])
        100 "host.get" none).2.1.ghostRelogins = authedState.ghostRelogins + 1 :=
  ((call_not_authorized_retry authedState 100 "host.get" none
      (TransportEvent.connError "Not authorized while sending request")
      [TransportEvent.decoded (some "tok2") none,
       TransportEvent.decoded (some "ok") none]
      ("HTTP connection problem: " ++ "Not authorized while sending request")
      (by decide) rfl).1 (by decide)).1

/--
C5: `relogin_enabled` is not among the attributes defined on the
`ZabbixAPI` class, so reading `self.relogin_enabled` falls through to
`__getattr__`, which returns a (truthy) `ZabbixAPISubClass` wrapper;
hence the guard is `true` for every client state — in particular one
constructed with `relogin_interval = None` — and a transport error
containing `'Not authorized while sending'` triggers the
relogin-and-retry path even then.
-/
theorem relogin_enabled_dynamic_dispatch :
    ("relogin_enabled" ∈ zabbixAPIDefinedAttrs → False) ∧
    dunderGetattrTruthy "relogin_enabled" = some true ∧
    (∀ st : ClientState, relogin_enabled st = true) ∧
    (∀ (st : ClientState) (now : Nat) (method : String) (params : Option String)
        (ev : TransportEvent) (rest : List TransportEvent) (msg : String),
      st.reloginInterval = none → logged_in st = true →
      preParseFail ev = some msg →
      strContains (hide_auth msg) "Not authorized while sending" = true →
      (call st (ev :: rest) now method params).2.1.ghostRelogins
        = st.ghostRelogins + 1) := by
  refine ⟨by decide, rfl, relogin_enabled_true, ?_⟩
  intro st now method params ev rest msg _ hlog hev hmatch
  exact call_fail_relogin_count st now method params ev rest msg hlog hev hmatch

/-- An authenticated state constructed with `relogin_interval = None`. -/
def noIntervalState : ClientState :=
  { username := some "Admin", password := some "zabbix", auth := some "tok", id := 0,
    lastLogin := some 5, reloginInterval := none, rQueryLen := 10, rQuery := [],
    ghostRequests := 0, ghostRelogins := 0 }

/-- C5 witness: with `relogin_interval = None` the not-authorized retry
path still performs its relogin. -/
theorem relogin_enabled_dynamic_dispatch_witness :
    relogin_enabled noIntervalState = true ∧
    (call noIntervalState
        (TransportEvent.connError "Not authorized while sending request"
          :: [TransportEvent.decoded (some "tok2") none,
              TransportEvent.decoded (some "ok") none])
        100 "host.get" none).2.1.ghostRelogins = noIntervalState.ghostRelogins + 1 :=
  ⟨relogin_enabled_dynamic_dispatch.2.2.1 noIntervalState,
   relogin_enabled_dynamic_dispatch.2.2.2 noIntervalState 100 "host.get" none
      (TransportEvent.connError "Not authorized while sending request")
      [TransportEvent.decoded (some "tok2") none,
       TransportEvent.decoded (some "ok") none]
      ("HTTP connection problem: " ++ "Not authorized while sending request")
      rfl (by decide) rfl (by decide)⟩
